import Mathlib

/-!
Shallow embedding of the dimension-label query subsystem of the TileDB storage
engine: the typed range primitives, the bounded-search range query that
translates a label range into an index range, the data-query status
composition, ordered-write preconditions, schema validation at label open, and
the ordering guard between range queries and data queries.

Sources embedded (paths relative to the repository root):
* tiledb/sm/query/dimension_label/dimension_label_range_query.cc / .h
* tiledb/sm/query/dimension_label/dimension_label_data_query.cc
* tiledb/sm/query/dimension_label/dimension_label_queries.cc
* tiledb/sm/dimension_label/dimension_label_query.cc
* tiledb/sm/dimension_label/unordered_labels_write_query.cc
* tiledb/sm/dimension_label/range_query.cc
* tiledb/type/range/test/unit_range_compare.cc, unit_range_modify.cc
-/

set_option maxHeartbeats 1000000

/-- Decidable equality for `Except`, used to evaluate the embedded fallible
operations on concrete inputs. -/
instance {ε α} [DecidableEq ε] [DecidableEq α] : DecidableEq (Except ε α) :=
  fun a b =>
  match a, b with
  | .error e1, .error e2 =>
    if h : e1 = e2 then isTrue (by rw [h])
    else isFalse (fun hc => h (Except.error.inj hc))
  | .error _, .ok _ => isFalse (fun hc => Except.noConfusion hc)
  | .ok _, .error _ => isFalse (fun hc => Except.noConfusion hc)
  | .ok a1, .ok a2 =>
    if h : a1 = a2 then isTrue (by rw [h])
    else isFalse (fun hc => h (Except.ok.inj hc))

/-- Query status enum (tiledb/sm/enums/query_status.h). -/
inductive QueryStatus where
  | UNINITIALIZED
  | INPROGRESS
  | INCOMPLETE
  | COMPLETED
  | FAILED
deriving DecidableEq, Repr

/-- Label order enum (tiledb/sm/enums/label_order.h). -/
inductive LabelOrder where
  | INCREASING_LABELS
  | DECREASING_LABELS
  | UNORDERED_LABELS
deriving DecidableEq, Repr

/-- A typed view of `tiledb::type::Range`: the byte buffer interpreted as a
closed interval with endpoints `start_fixed` and `end_fixed` at one integer
scalar type.  The engine's index types are integer-valued, so endpoints are
modelled as unbounded integers; no claim settled here exercises fixed-width
wraparound. -/
structure TRange where
  start_fixed : Int
  end_fixed : Int
deriving DecidableEq, Repr

/-- Modelled from the spec: `upper_bound_greater_than<T>` of
tiledb/type/range/range.h (only its tests are in the tree, see
unit_range_compare.cc): whether the upper endpoint of the first range is
strictly greater than that of the second. -/
def upper_bound_greater_than (r1 r2 : TRange) : Bool :=
  decide (r1.end_fixed > r2.end_fixed)

/-- Modelled from the spec: `decrease_upper_bound<T>` of
tiledb/type/range/range.h (tests in unit_range_modify.cc): step the upper
endpoint down by one representable value. -/
def decrease_upper_bound (r : TRange) : TRange :=
  { r with end_fixed := r.end_fixed - 1 }

/-- Modelled from the spec: `increase_upper_bound<T>` of
tiledb/type/range/range.h (tests in unit_range_modify.cc): step the upper
endpoint up by one representable value. -/
def increase_upper_bound (r : TRange) : TRange :=
  { r with end_fixed := r.end_fixed + 1 }

/-- Function `index_range_fixer` (dimension_label_range_query.cc lines 96-166): selects
the correction applied to the computed index range.  Increasing labels use
`decrease_upper_bound`, decreasing labels use `increase_upper_bound`; any
other order throws std::invalid_argument, modelled as `none`.  All supported
integer index datatypes dispatch to the same integer step, so the datatype
parameter is dropped. -/
def index_range_fixer (order : LabelOrder) : Option (TRange → TRange) :=
  match order with
  | .INCREASING_LABELS => some decrease_upper_bound
  | .DECREASING_LABELS => some increase_upper_bound
  | .UNORDERED_LABELS => none

/-- One stored cell of the labelled sparse backing array: a (label, index)
pair. -/
structure LabelledCell where
  label : Int
  index : Int
deriving DecidableEq, Repr

/-- Modelled from the spec: the bounded probe each bound query issues against
the labelled sparse array (the generic array read path is outside the
dimension-label files).  The probe reads one cell with label range
`[lower, domainEnd]` and returns the first matched (label, index) pair; the
cell list is given in increasing label order, the sort order of the labelled
array. -/
def probe (cells : List LabelledCell) (lower domainEnd : Int) : Option LabelledCell :=
  cells.find? (fun c => decide (lower ≤ c.label) && decide (c.label ≤ domainEnd))

/-- Errors raised by the `DimensionLabelRangeQuery` constructor
(dimension_label_range_query.cc lines 96-260).  `InvalidOrder` is the
std::invalid_argument thrown by `index_range_fixer` for orders other than
increasing/decreasing; `NoRangeSet` and `MultipleRanges` are the
Status_RangeQueryError exceptions for zero or more than one label range. -/
inductive RangeQueryError where
  | InvalidOrder
  | NoRangeSet
  | MultipleRanges
deriving DecidableEq, Repr

/-- The configuration a successfully constructed `DimensionLabelRangeQuery`
holds: the label order, the single input label range, the label dimension
domain (whose upper endpoint bounds both probes) and the index dimension
domain (the initial value of the computed index range). -/
structure DimensionLabelRangeQuery where
  order : LabelOrder
  input_label_range : TRange
  label_domain : TRange
  index_domain : TRange
deriving DecidableEq, Repr

/-- Constructor checks of `DimensionLabelRangeQuery`
(dimension_label_range_query.cc lines 168-260): the member initializer
`index_range_fixer` rejects any order other than increasing or decreasing
before the body runs; the body then requires exactly one label range. -/
def DimensionLabelRangeQuery.construct (order : LabelOrder)
    (label_ranges : List TRange) (label_domain index_domain : TRange) :
    Except RangeQueryError DimensionLabelRangeQuery :=
  match index_range_fixer order with
  | none => .error .InvalidOrder
  | some _ =>
    match label_ranges with
    | [] => .error .NoRangeSet
    | [r] => .ok ⟨order, r, label_domain, index_domain⟩
    | _ => .error .MultipleRanges

/-- Result of `DimensionLabelRangeQuery::submit`: the query status and the
computed index range. -/
structure RangeQueryResult where
  status : QueryStatus
  index_range : TRange
deriving DecidableEq, Repr

/-- Method `DimensionLabelRangeQuery::submit` (dimension_label_range_query.cc lines
272-301) together with the buffer wiring done in the constructor (lines
211-255): the lower probe reads with label range [input.start, domain.end] and
the upper probe with [input.end, domain.end].  For increasing labels the lower
probe writes the start of the computed index range and the upper probe its
end; for decreasing labels the two are swapped.  Both probes must return a
cell, else the status is FAILED.  If the label matched by the upper probe is
strictly greater than the input upper bound, the fixer from
`index_range_fixer` is applied to the computed index range. -/
def DimensionLabelRangeQuery.submit (q : DimensionLabelRangeQuery)
    (cells : List LabelledCell) : RangeQueryResult :=
  match probe cells q.input_label_range.start_fixed q.label_domain.end_fixed,
        probe cells q.input_label_range.end_fixed q.label_domain.end_fixed with
  | some lo, some hi =>
    let computed_label_range : TRange := ⟨lo.label, hi.label⟩
    let computed_index_range : TRange :=
      match q.order with
      | .INCREASING_LABELS => ⟨lo.index, hi.index⟩
      | _ => ⟨hi.index, lo.index⟩
    if upper_bound_greater_than computed_label_range q.input_label_range then
      match index_range_fixer q.order with
      | some fix => ⟨.COMPLETED, fix computed_index_range⟩
      | none => ⟨.FAILED, q.index_domain⟩
    else ⟨.COMPLETED, computed_index_range⟩
  | _, _ => ⟨.FAILED, q.index_domain⟩

/-- Construct a `DimensionLabelRangeQuery` and submit it: the full translation
of one label range into one index range. -/
def readRange (order : LabelOrder) (label_ranges : List TRange)
    (label_domain index_domain : TRange) (cells : List LabelledCell) :
    Except RangeQueryError RangeQueryResult :=
  (DimensionLabelRangeQuery.construct order label_ranges label_domain
      index_domain).map
    (fun q => q.submit cells)

/-- The labelled-array contents of the increasing test array
(test-DimensionLabelRangeQuery.cc): index=[1,2,3,4], label=[10,20,30,40],
listed in increasing label order. -/
def increasingCells : List LabelledCell :=
  [⟨10, 1⟩, ⟨20, 2⟩, ⟨30, 3⟩, ⟨40, 4⟩]

/-- The labelled-array contents of the decreasing test array
(test-DimensionLabelRangeQuery.cc): index=[1,2,3,4], label=[40,30,20,10],
listed in increasing label order as stored in the sparse labelled array. -/
def decreasingCells : List LabelledCell :=
  [⟨10, 4⟩, ⟨20, 3⟩, ⟨30, 2⟩, ⟨40, 1⟩]

/-- C2: on the increasing uint64 label array with index domain [1,4], label
domain [0,400], index=[1,2,3,4] and label=[10,20,30,40], the range query for
label range [12,35] completes with index range [2,3]: the lower probe returns
(20,2), the upper probe returns (40,4), and since 40 > 35 the correction
decrements the upper index from 4 to 3. -/
theorem c2_increasing_inexact_range :
    readRange .INCREASING_LABELS [⟨12, 35⟩] ⟨0, 400⟩ ⟨1, 4⟩ increasingCells =
      .ok ⟨.COMPLETED, ⟨2, 3⟩⟩ ∧
    probe increasingCells 12 400 = some ⟨20, 2⟩ ∧
    probe increasingCells 35 400 = some ⟨40, 4⟩ ∧
    upper_bound_greater_than ⟨20, 40⟩ ⟨12, 35⟩ = true ∧
    decrease_upper_bound ⟨2, 4⟩ = ⟨2, 3⟩ :=
  ⟨rfl, rfl, rfl, rfl, rfl⟩

/-- C3: on the same increasing label array, the range query for label range
[12,18] completes (status COMPLETED) and the computed index range is [2,1],
which is empty: it contains no index k. -/
theorem c3_increasing_empty_range :
    ∃ res : RangeQueryResult,
      readRange .INCREASING_LABELS [⟨12, 18⟩] ⟨0, 400⟩ ⟨1, 4⟩ increasingCells =
        .ok res ∧
      res.status = .COMPLETED ∧
      ∀ k : Int,
        ¬(res.index_range.start_fixed ≤ k ∧ k ≤ res.index_range.end_fixed) := by
  refine ⟨⟨.COMPLETED, ⟨2, 1⟩⟩, rfl, rfl, ?_⟩
  intro k hk
  have h2 : (2 : Int) ≤ k := hk.1
  have h1 : k ≤ (1 : Int) := hk.2
  omega

/-- C1 (evaluation at the failing input): on the DECREASING label array with
index=[1,2,3,4] and label=[40,30,20,10], the range query for label range
[12,35] completes successfully with computed index range [1,4].  The stored
pair (label 10, index 4) has its index inside [1,4] but its label outside the
queried range in either orientation, so range containment fails; the
repository's own test (test-DimensionLabelRangeQuery.cc, section "inexact
range result") expects [2,3] here. -/
theorem c1_decreasing_containment_violated :
    readRange .DECREASING_LABELS [⟨12, 35⟩] ⟨0, 400⟩ ⟨1, 4⟩ decreasingCells =
      .ok ⟨.COMPLETED, ⟨1, 4⟩⟩ ∧
    (∃ c ∈ decreasingCells,
      c.index = 4 ∧ (1 : Int) ≤ c.index ∧ c.index ≤ 4 ∧
      ¬(12 ≤ c.label ∧ c.label ≤ 35) ∧ ¬(35 ≤ c.label ∧ c.label ≤ 12)) := by
  constructor
  · rfl
  · exact ⟨⟨10, 4⟩, by decide, rfl, by decide, by decide, by decide, by decide⟩

/-- Method `UnorderedLabelsWriteQuery::status` (unordered_labels_write_query.cc lines
110-145), restricted to the state where both child queries exist: equal child
statuses are returned directly; one UNINITIALIZED child is a structural bug
(throws std::runtime_error, modelled as `.error`); otherwise a FAILED child
dominates, then an INCOMPLETE child, and any remaining mix is INPROGRESS. -/
def UnorderedLabelsWriteQuery.status (labelled indexed : QueryStatus) :
    Except Unit QueryStatus :=
  if labelled = indexed then .ok labelled
  else if labelled = .UNINITIALIZED ∨ indexed = .UNINITIALIZED then .error ()
  else if labelled = .FAILED ∨ indexed = .FAILED then .ok .FAILED
  else if labelled = .INCOMPLETE ∨ indexed = .INCOMPLETE then .ok .INCOMPLETE
  else .ok .INPROGRESS

/-- Method `OrderedLabelsQuery::status_data_query` (dimension_label_query.cc lines
172-186), restricted to the branch where both child queries exist: returns the
labelled status when it is FAILED or equals the indexed status, otherwise the
indexed status. -/
def OrderedLabelsQuery.statusDataQuery (labelled indexed : QueryStatus) :
    QueryStatus :=
  if labelled = .FAILED ∨ indexed = labelled then labelled else indexed

/-- C4 counterexample: `OrderedLabelsQuery::status_data_query` with a labelled
child INCOMPLETE and an indexed child COMPLETED reports COMPLETED, not the
INCOMPLETE the claim requires for a one-INCOMPLETE one-COMPLETED mix. -/
theorem c4_status_counterexample :
    OrderedLabelsQuery.statusDataQuery .INCOMPLETE .COMPLETED = .COMPLETED ∧
    OrderedLabelsQuery.statusDataQuery .INCOMPLETE .COMPLETED ≠ .INCOMPLETE := by
  decide

/-- C4 (amended): the claimed status composition holds for
`UnorderedLabelsWriteQuery::status` whenever both child queries are
initialized: any FAILED child yields FAILED, otherwise any INCOMPLETE child
yields INCOMPLETE, equal statuses yield that status, and any remaining mix
yields INPROGRESS.  In particular COMPLETED with FAILED gives FAILED,
INCOMPLETE with COMPLETED gives INCOMPLETE, and COMPLETED with COMPLETED gives
COMPLETED. -/
theorem c4_unordered_status_composition (labelled indexed : QueryStatus)
    (hl : labelled ≠ .UNINITIALIZED) (hi : indexed ≠ .UNINITIALIZED) :
    ((labelled = .FAILED ∨ indexed = .FAILED) →
      UnorderedLabelsWriteQuery.status labelled indexed = .ok .FAILED) ∧
    (labelled ≠ .FAILED → indexed ≠ .FAILED →
      (labelled = .INCOMPLETE ∨ indexed = .INCOMPLETE) →
      UnorderedLabelsWriteQuery.status labelled indexed = .ok .INCOMPLETE) ∧
    (labelled = indexed →
      UnorderedLabelsWriteQuery.status labelled indexed = .ok labelled) ∧
    (labelled ≠ .FAILED → indexed ≠ .FAILED → labelled ≠ .INCOMPLETE →
      indexed ≠ .INCOMPLETE → labelled ≠ indexed →
      UnorderedLabelsWriteQuery.status labelled indexed = .ok .INPROGRESS) := by
  refine ⟨?_, ?_, ?_, ?_⟩ <;>
    cases labelled <;> cases indexed <;> revert hl hi <;> decide

/-- C4 witness: the amended composition applied at the INCOMPLETE/COMPLETED
mix. -/
theorem c4_unordered_status_composition_witness :
    UnorderedLabelsWriteQuery.status .INCOMPLETE .COMPLETED = .ok .INCOMPLETE :=
  (c4_unordered_status_composition .INCOMPLETE .COMPLETED (by decide)
      (by decide)).2.1 (by decide) (by decide) (Or.inl rfl)

/-- Errors raised while building dimension-label data queries
(dimension_label_data_query.cc and dimension_label_queries.cc).
`SingleFragmentLabel` is the ordered-write-once error; `NonDefaultSubarray`
the full-array-only error; `MissingIndexBuffer` the missing parent-dimension
buffer error; `VarLengthTodo` the std::runtime_error on a label offsets
buffer in the write path. -/
inductive DataQueryError where
  | SingleFragmentLabel
  | NonDefaultSubarray
  | MissingIndexBuffer
  | VarLengthTodo
deriving DecidableEq, Repr

/-- Preconditions of `OrderedWriteDataQuery::OrderedWriteDataQuery`
(dimension_label_data_query.cc lines 112-133): the labelled and indexed
backing arrays must both be empty, else the single-fragment error is thrown;
the parent subarray on the labelled dimension must be in its default state,
else the full-array-only error is thrown; otherwise construction proceeds to
bind the buffers. -/
def OrderedWriteDataQuery.construct (labelled_array_empty indexed_array_empty
    parent_subarray_default : Bool) : Except DataQueryError Unit :=
  if !labelled_array_empty || !indexed_array_empty then
    .error .SingleFragmentLabel
  else if !parent_subarray_default then .error .NonDefaultSubarray
  else .ok ()

/-- C5: ordered-write construction fails with SingleFragmentLabel whenever
either backing array is non-empty (hence a second ordered write, which sees
both arrays non-empty, always fails); with both arrays empty it fails when the
parent subarray is not default; and a first write to an empty label with a
default subarray passes both preconditions. -/
theorem c5_ordered_write_preconditions (le ie sd : Bool) :
    ((le = false ∨ ie = false) →
      OrderedWriteDataQuery.construct le ie sd = .error .SingleFragmentLabel) ∧
    (le = true → ie = true → sd = false →
      OrderedWriteDataQuery.construct le ie sd = .error .NonDefaultSubarray) ∧
    (le = true → ie = true → sd = true →
      OrderedWriteDataQuery.construct le ie sd = .ok ()) := by
  cases le <;> cases ie <;> cases sd <;> decide

/-- C5 witness: a non-empty labelled array is rejected with
SingleFragmentLabel, a non-default subarray with the full-array error, and the
first write to an empty label with a default subarray is accepted. -/
theorem c5_ordered_write_preconditions_witness :
    OrderedWriteDataQuery.construct false true true =
      .error .SingleFragmentLabel ∧
    OrderedWriteDataQuery.construct true true false =
      .error .NonDefaultSubarray ∧
    OrderedWriteDataQuery.construct true true true = .ok () :=
  ⟨(c5_ordered_write_preconditions false true true).1 (Or.inl rfl),
   (c5_ordered_write_preconditions true true false).2.1 rfl rfl rfl,
   (c5_ordered_write_preconditions true true true).2.2 rfl rfl rfl⟩

/-- C6: constructing a dimension-label range query with zero or with two or
more label ranges always fails (every `RangeQueryError` is an
invalid-argument-class error), and with exactly one label range the only
possible constructor failure is the unsupported-order error, never a
range-count error. -/
theorem c6_exactly_one_label_range (order : LabelOrder)
    (ranges : List TRange) (ld idd : TRange) :
    (ranges.length ≠ 1 →
      ∃ e, DimensionLabelRangeQuery.construct order ranges ld idd =
        Except.error e) ∧
    (ranges.length = 1 → ∀ e,
      DimensionLabelRangeQuery.construct order ranges ld idd =
        Except.error e →
      e = RangeQueryError.InvalidOrder) := by
  constructor
  · intro hlen
    cases order <;>
      [skip; skip; exact ⟨RangeQueryError.InvalidOrder, rfl⟩] <;>
      ( match ranges, hlen with
        | [], _ => exact ⟨RangeQueryError.NoRangeSet, rfl⟩
        | [r], h => exact absurd rfl h
        | r1 :: r2 :: tl, _ =>
            exact ⟨RangeQueryError.MultipleRanges, rfl⟩ )
  · intro hlen e he
    cases order <;>
      ( match ranges, hlen with
        | [r], _ => first
            | (cases he; rfl)
            | (cases he) )

/-- C6 witness: a zero-range construction fails, and a one-range increasing
construction is not rejected by the range-count checks. -/
theorem c6_exactly_one_label_range_witness :
    (∃ e, DimensionLabelRangeQuery.construct .INCREASING_LABELS []
      ⟨0, 400⟩ ⟨1, 4⟩ = Except.error e) ∧
    (∀ e, DimensionLabelRangeQuery.construct .INCREASING_LABELS [⟨12, 35⟩]
        ⟨0, 400⟩ ⟨1, 4⟩ = Except.error e →
      e = RangeQueryError.InvalidOrder) :=
  ⟨(c6_exactly_one_label_range .INCREASING_LABELS [] ⟨0, 400⟩ ⟨1, 4⟩).1
      (by decide),
   (c6_exactly_one_label_range .INCREASING_LABELS [⟨12, 35⟩] ⟨0, 400⟩
      ⟨1, 4⟩).2 rfl⟩

/-- Per-label body of `DimensionLabelQueries::add_data_queries_for_write`
(dimension_label_queries.cc lines 189-306).  Labels already handled by a
range query are skipped (`.ok false`).  Otherwise the parent-dimension index
buffer is looked up before the dispatch on label order and its absence throws
the missing-buffer error for every order; a label offsets buffer throws the
var-length TODO error; the increasing/decreasing branch then re-checks the
ordered-write preconditions before binding buffers, while the unordered
branch binds buffers directly.  `.ok true` means a data query was added. -/
def add_data_query_for_write (already_has_range_query : Bool)
    (order : LabelOrder) (has_index_buffer has_label_offsets_buffer : Bool)
    (labelled_array_empty indexed_array_empty subarray_default : Bool) :
    Except DataQueryError Bool :=
  if already_has_range_query then .ok false
  else if !has_index_buffer then .error .MissingIndexBuffer
  else if has_label_offsets_buffer then .error .VarLengthTodo
  else
    match order with
    | .INCREASING_LABELS | .DECREASING_LABELS =>
      if !labelled_array_empty || !indexed_array_empty then
        .error .SingleFragmentLabel
      else if !subarray_default then .error .NonDefaultSubarray
      else .ok true
    | .UNORDERED_LABELS => .ok true

/-- C7 counterexample: for an INCREASING label with no parent-dimension index
buffer (everything else well-formed: no prior range query, no offsets buffer,
both backing arrays empty, default subarray), the write data query
construction fails with the missing-index-buffer error, although the claim
says a missing index buffer does not cause ordered-label construction to
fail. -/
theorem c7_ordered_write_missing_buffer_counterexample :
    add_data_query_for_write false .INCREASING_LABELS false false true true
      true = .error .MissingIndexBuffer := by
  decide

/-- C7 (amended): the parent-dimension index buffer is required for every
label order.  Whenever the label is not already covered by a range query and
the index buffer is absent, `add_data_queries_for_write` fails with the
missing-index-buffer error regardless of the label order and of every other
input. -/
theorem c7_missing_index_buffer_every_order (order : LabelOrder)
    (hl le ie sd : Bool) :
    add_data_query_for_write false order false hl le ie sd =
      .error .MissingIndexBuffer := by
  rfl

/-- The facts about the parent-schema dimension compared against the label's
index dimension when a label is opened: datatype, domain and cell-val-num. -/
structure DimFacts where
  dtype : Nat
  domain : TRange
  cell_val_num : Nat
deriving DecidableEq, Repr

/-- The dimension-label reference declared on the parent array schema
(array_schema/dimension_label_reference.h): the dimension it attaches to and
the declared order, label type, label domain and label cell-val-num. -/
structure DimensionLabelReference where
  dim : DimFacts
  label_order : LabelOrder
  label_type : Nat
  label_domain : TRange
  label_cell_val_num : Nat
deriving DecidableEq, Repr

/-- The on-disk dimension-label schema as read when the label is opened:
its index dimension facts and its stored order, label type, label domain and
label cell-val-num. -/
structure DimensionLabelSchema where
  index_dim : DimFacts
  label_order : LabelOrder
  label_type : Nat
  label_domain : TRange
  label_cell_val_num : Nat
deriving DecidableEq, Repr

/-- Modelled from the spec: `DimensionLabelSchema::is_compatible_label` (only
called, not defined, in the dimension-label files): the declared parent
dimension must match the label's index dimension in type, domain and
cell-val-num. -/
def is_compatible_label (dim : DimFacts) (schema : DimensionLabelSchema) :
    Bool :=
  decide (dim.dtype = schema.index_dim.dtype) &&
    decide (dim.domain = schema.index_dim.domain) &&
    decide (dim.cell_val_num = schema.index_dim.cell_val_num)

/-- The label-schema-mismatch error of
`DimensionLabelQueries::open_dimension_label`. -/
inductive OpenError where
  | LabelSchemaMismatch
deriving DecidableEq, Repr

/-- Schema-validation block of `DimensionLabelQueries::open_dimension_label`
(dimension_label_queries.cc lines 414-454): after opening, the label schema
must be compatible with the parent dimension and must agree with the label
reference on order, label type, label domain and label cell-val-num; each
mismatch throws. -/
def open_dimension_label_validate (declared_dim : DimFacts)
    (schema : DimensionLabelSchema) (ref : DimensionLabelReference) :
    Except OpenError Unit :=
  if !(is_compatible_label declared_dim schema) then
    .error .LabelSchemaMismatch
  else if schema.label_order ≠ ref.label_order then
    .error .LabelSchemaMismatch
  else if schema.label_type ≠ ref.label_type then
    .error .LabelSchemaMismatch
  else if schema.label_domain ≠ ref.label_domain then
    .error .LabelSchemaMismatch
  else if schema.label_cell_val_num ≠ ref.label_cell_val_num then
    .error .LabelSchemaMismatch
  else .ok ()

/-- C8: opening a dimension label succeeds exactly when the label schema is
compatible with the parent dimension (type, domain, cell-val-num) and agrees
with the label reference on order, label type, label domain and label
cell-val-num; since the only error is the schema-mismatch error, any
disagreement in these checks fails with it, and full agreement passes them
all. -/
theorem c8_open_schema_validation (d : DimFacts) (s : DimensionLabelSchema)
    (r : DimensionLabelReference) :
    open_dimension_label_validate d s r = .ok () ↔
      (is_compatible_label d s = true ∧ s.label_order = r.label_order ∧
       s.label_type = r.label_type ∧ s.label_domain = r.label_domain ∧
       s.label_cell_val_num = r.label_cell_val_num) := by
  unfold open_dimension_label_validate
  split_ifs with h1 h2 h3 h4 h5 <;> simp_all

/-- C8 witness: validation accepts a schema that agrees with its reference on
all five checks. -/
theorem c8_open_schema_validation_witness :
    open_dimension_label_validate ⟨3, ⟨1, 4⟩, 1⟩
      ⟨⟨3, ⟨1, 4⟩, 1⟩, .INCREASING_LABELS, 7, ⟨0, 400⟩, 1⟩
      ⟨⟨3, ⟨1, 4⟩, 1⟩, .INCREASING_LABELS, 7, ⟨0, 400⟩, 1⟩ = .ok () :=
  (c8_open_schema_validation ⟨3, ⟨1, 4⟩, 1⟩
      ⟨⟨3, ⟨1, 4⟩, 1⟩, .INCREASING_LABELS, 7, ⟨0, 400⟩, 1⟩
      ⟨⟨3, ⟨1, 4⟩, 1⟩, .INCREASING_LABELS, 7, ⟨0, 400⟩, 1⟩).mpr (by decide)

/-- State of an `OrderedLabelsQuery` as far as the ordering between its range
query and its data queries is concerned: the status of the owned range query
if one was added with `add_label_range`, and the log of range-query statuses
observed at each successful data-query submission (`none` when no range query
existed at that point). -/
structure OLState where
  range_query : Option QueryStatus
  data_runs : List (Option QueryStatus)
deriving DecidableEq, Repr

/-- Method `OrderedLabelsQuery::submit_data_query` (dimension_label_query.cc lines
194-204): returns an error without running the child data queries when a
range query exists whose status is not COMPLETED; otherwise submits the
children, recorded here by appending the observed range-query status to the
log. -/
def OrderedLabelsQuery.submitDataQuery (s : OLState) :
    Except Unit OLState :=
  match s.range_query with
  | some st =>
    if st ≠ QueryStatus.COMPLETED then .error ()
    else .ok { s with data_runs := s.data_runs ++ [some st] }
  | none => .ok { s with data_runs := s.data_runs ++ [none] }

/-- Lifecycle events of an `OrderedLabelsQuery`: `addLabelRange` creates the
range query (`add_label_range`, which rejects a second range, so an existing
query is left unchanged), `resolveLabels` runs the range query to COMPLETED
on success or FAILED otherwise (`resolve_labels` / `RangeQuery::finalize`),
and `submitDataQuery` attempts a data-query submission. -/
inductive OLEvent where
  | addLabelRange
  | resolveLabels (success : Bool)
  | submitDataQuery
deriving DecidableEq, Repr

/-- One step of the `OrderedLabelsQuery` lifecycle; a rejected data-query
submission leaves the state unchanged. -/
def OLStep (s : OLState) : OLEvent → OLState
  | .addLabelRange =>
    match s.range_query with
    | none => { s with range_query := some .UNINITIALIZED }
    | some _ => s
  | .resolveLabels success =>
    match s.range_query with
    | some _ =>
      { s with range_query := some (if success then .COMPLETED else .FAILED) }
    | none => s
  | .submitDataQuery =>
    match OrderedLabelsQuery.submitDataQuery s with
    | .ok s2 => s2
    | .error _ => s

/-- Run a sequence of lifecycle events from the freshly constructed state
(no range query, no data submissions). -/
def OLRun (events : List OLEvent) : OLState :=
  events.foldl OLStep ⟨none, []⟩

/-- Every data submission recorded in the log that observed a range query
observed it COMPLETED, and stepping preserves this. -/
theorem olstep_preserves_barrier (s : OLState) (e : OLEvent)
    (h : ∀ st : QueryStatus, some st ∈ s.data_runs →
      st = QueryStatus.COMPLETED) :
    ∀ st : QueryStatus, some st ∈ (OLStep s e).data_runs →
      st = QueryStatus.COMPLETED := by
  intro st hmem
  cases e with
  | addLabelRange =>
    cases hrq : s.range_query with
    | none => exact h st (by simpa [OLStep, hrq] using hmem)
    | some q => exact h st (by simpa [OLStep, hrq] using hmem)
  | resolveLabels success =>
    cases hrq : s.range_query with
    | none => exact h st (by simpa [OLStep, hrq] using hmem)
    | some q => exact h st (by simpa [OLStep, hrq] using hmem)
  | submitDataQuery =>
    cases hrq : s.range_query with
    | none =>
      have hruns : (OLStep s .submitDataQuery).data_runs =
          s.data_runs ++ [none] := by
        simp [OLStep, OrderedLabelsQuery.submitDataQuery, hrq]
      rw [hruns] at hmem
      rcases List.mem_append.mp hmem with hin | hnew
      · exact h st hin
      · exact absurd (List.mem_singleton.mp hnew) (by simp)
    | some q =>
      by_cases hq : q = QueryStatus.COMPLETED
      · have hruns : (OLStep s .submitDataQuery).data_runs =
            s.data_runs ++ [some q] := by
          simp [OLStep, OrderedLabelsQuery.submitDataQuery, hrq, hq]
        rw [hruns] at hmem
        rcases List.mem_append.mp hmem with hin | hnew
        · exact h st hin
        · rw [hq] at hnew
          exact Option.some.inj (List.mem_singleton.mp hnew)
      · have hruns : (OLStep s .submitDataQuery).data_runs = s.data_runs := by
          simp [OLStep, OrderedLabelsQuery.submitDataQuery, hrq, hq]
        rw [hruns] at hmem
        exact h st hmem

/-- The barrier invariant holds along any run from any starting state that
satisfies it. -/
theorem olrun_aux (events : List OLEvent) (s : OLState)
    (h : ∀ st : QueryStatus, some st ∈ s.data_runs →
      st = QueryStatus.COMPLETED) :
    ∀ st : QueryStatus, some st ∈ (events.foldl OLStep s).data_runs →
      st = QueryStatus.COMPLETED := by
  induction events generalizing s with
  | nil => exact h
  | cons e tl ih =>
    exact ih (OLStep s e) (olstep_preserves_barrier s e h)

/-- C9: in every execution of the `OrderedLabelsQuery` lifecycle, a data
query that runs while a range query exists observes that range query already
COMPLETED; and submitting a data query while the range query exists in any
non-COMPLETED status is rejected with an error. -/
theorem c9_subarray_barrier :
    (∀ events : List OLEvent, ∀ st : QueryStatus,
      some st ∈ (OLRun events).data_runs → st = QueryStatus.COMPLETED) ∧
    (∀ s : OLState, ∀ st : QueryStatus, s.range_query = some st →
      st ≠ QueryStatus.COMPLETED →
      OrderedLabelsQuery.submitDataQuery s = Except.error ()) := by
  constructor
  · intro events st hmem
    exact olrun_aux events ⟨none, []⟩ (by intro st2 h2; cases h2) st hmem
  · intro s st hrq hne
    simp [OrderedLabelsQuery.submitDataQuery, hrq, hne]

/-- C9 witness: the barrier applied to a concrete run in which the range
query is added, resolved, and only then a data query submitted; and the
rejection applied to a state whose range query is still UNINITIALIZED. -/
theorem c9_subarray_barrier_witness :
    QueryStatus.COMPLETED = QueryStatus.COMPLETED ∧
    OrderedLabelsQuery.submitDataQuery ⟨some QueryStatus.UNINITIALIZED, []⟩ =
      Except.error () :=
  ⟨c9_subarray_barrier.1
      [OLEvent.addLabelRange, OLEvent.resolveLabels true,
        OLEvent.submitDataQuery] QueryStatus.COMPLETED (by decide),
   c9_subarray_barrier.2 ⟨some QueryStatus.UNINITIALIZED, []⟩
      QueryStatus.UNINITIALIZED rfl (by decide)⟩

/-- Outcome of the older `RangeQuery::submit` (range_query.cc lines 233-246):
whether an Ok status was returned and which child queries were cancelled
before returning. -/
structure SubmitOutcome where
  returned_ok : Bool
  lower_cancelled : Bool
  upper_cancelled : Bool
deriving DecidableEq, Repr

/-- The older `RangeQuery::submit` (range_query.cc lines 233-246).  If the
lower-bound submit fails, the upper-bound query is cancelled and the error
returned.  The check on the upper-bound submit status is inverted in the
source: when the upper submit succeeds, the lower-bound query is cancelled
and the (Ok) status returned; when it fails, control falls through to
`return Status::Ok()`. -/
def RangeQuery.submit (lower_ok upper_ok : Bool) : SubmitOutcome :=
  if !lower_ok then ⟨false, false, true⟩
  else if upper_ok then ⟨true, true, false⟩
  else ⟨true, false, false⟩

/-- C10: the older submit returns an Ok status whenever the lower-bound
submit succeeds, regardless of the upper-bound outcome, and when both
succeed it additionally cancels the lower-bound child query. -/
theorem c10_old_submit_ok_despite_upper :
    (∀ upper_ok : Bool,
      (RangeQuery.submit true upper_ok).returned_ok = true) ∧
    (RangeQuery.submit true true).lower_cancelled = true := by
  decide
